import Mathlib

/-!
Shallow embedding of `src/main.py`, an authenticating reverse proxy
(FastAPI) in front of a document-conversion backend.

Modelling conventions:
* HTTP bodies are `String` values standing for byte sequences
  (byte-for-byte equality becomes string equality).
* Header sets are association lists `List (String × String)`; lookup is
  case-insensitive in the name, as in Starlette.
* `DOCLING_API_TOKEN` is `Option String` (`none` = env var unset).
* Python floats (`wait`, timeouts) are modelled as `ℚ`; the arithmetic the
  code performs (`wait + 5.0`, `max _ 30.0`) is exact on the inputs of
  interest.
* The optional `?wait=...` query string appended to the backend URL is
  modelled structurally as an `Option ℚ` field of the outbound request.
* The backend is a function `OutboundRequest → Option BackendResponse`;
  `none` models any exception raised by the `httpx` call (connection
  error, timeout, malformed response).
* A JSON object body rendered by FastAPI is written with `\x7b`/`\x7d`
  escapes for the braces.
-/

namespace ApiProxy

/-- An inbound HTTP request as the proxy sees it: URL path (no query
string), header list, raw body bytes, and the parsed `wait` query
parameter (FastAPI default `0.0` when absent; only the status-poll route
reads it). -/
structure Request where
  path : String
  headers : List (String × String)
  body : String
  wait : ℚ
deriving DecidableEq

/-- The response the proxy returns to its caller. -/
structure HttpResponse where
  status : Nat
  body : String
  headers : List (String × String)
deriving DecidableEq

/-- The outbound HTTP request the proxy issues to the backend.
`url` is the target URL's path part; `waitQuery` is the optional
`?wait=...` query string, modelled structurally. -/
structure OutboundRequest where
  method : String
  url : String
  waitQuery : Option ℚ
  body : String
  headers : List (String × String)
  timeout : ℚ
deriving DecidableEq

/-- The backend's response: status code, body bytes, headers. -/
structure BackendResponse where
  status : Nat
  body : String
  headers : List (String × String)
deriving DecidableEq

/-- A deterministic backend: `none` models a transport-level failure
(any exception raised by the `httpx` call). -/
def Backend : Type := OutboundRequest → Option BackendResponse

/-- Read-only process configuration: `DOCLING_API_TOKEN` (`none` when the
environment variable is unset) and the computed `DOCLING_API_URL`. -/
structure Config where
  token : Option String
  apiUrl : String

/-- Python truthiness of an optional string: `os.getenv` results are falsy
when `None` or the empty string (`if not DOCLING_API_TOKEN`,
`if not auth_header`). -/
def pyFalsy : Option String → Bool
  | none => true
  | some s => s = ""

/-- ASCII lowercasing of one character (Python `str.lower` restricted to
the ASCII names and schemes this program compares). -/
def asciiLower (c : Char) : Char :=
  if 65 ≤ c.toNat ∧ c.toNat ≤ 90 then Char.ofNat (c.toNat + 32) else c

/-- ASCII lowercasing of a string. -/
def strLower (s : String) : String :=
  String.mk (s.data.map asciiLower)

/-- Case-insensitive header lookup, as `request.headers.get(name)` on
Starlette's case-insensitive header multidict. -/
def headersGet (hs : List (String × String)) (name : String) : Option String :=
  (hs.find? fun p => strLower p.1 = strLower name).map Prod.snd

/-- Python whitespace test for `str.split(None)` (ASCII range). -/
def pyIsSpace (c : Char) : Bool :=
  c.toNat = 32 || c.toNat = 9 || c.toNat = 10 || c.toNat = 13 ||
    c.toNat = 11 || c.toNat = 12

/-- Python `s.split(None, 1)`: drop leading whitespace; first token is the
run of non-whitespace; drop the separating whitespace run; the remainder
(trailing whitespace included) is the second token when non-empty. -/
def pySplitWs1 (s : String) : List String :=
  let cs := s.data.dropWhile pyIsSpace
  if cs = [] then []
  else
    let tok := cs.takeWhile fun c => !pyIsSpace c
    let rest := (cs.dropWhile fun c => !pyIsSpace c).dropWhile pyIsSpace
    if rest = [] then [String.mk tok] else [String.mk tok, String.mk rest]

/-- FastAPI renders `JSONResponse(content={"detail": msg})` and
`HTTPException(detail=msg)` bodies as this JSON object. -/
def jsonDetail (msg : String) : String :=
  "\x7b\"detail\":\"" ++ msg ++ "\"\x7d"

/-- Headers of a FastAPI JSON response. -/
def jsonHeaders : List (String × String) := [("content-type", "application/json")]

/-- Rejection (503) when `DOCLING_API_TOKEN` is unset/empty (main.py:34). -/
def configErrorResp : HttpResponse :=
  { status := 503, body := jsonDetail "Service unavailable: Configuration error",
    headers := jsonHeaders }

/-- Rejection (401) when no `Authorization` header is supplied (main.py:42). -/
def headerRequiredResp : HttpResponse :=
  { status := 401, body := jsonDetail "Authorization header required",
    headers := jsonHeaders }

/-- Rejection (401) when the header does not parse as `Bearer <token>`
(main.py:49). -/
def formatErrorResp : HttpResponse :=
  { status := 401,
    body := jsonDetail "Invalid Authorization header format. Expected \x27Bearer <token>\x27",
    headers := jsonHeaders }

/-- Rejection (401) when the bearer token mismatches the secret (main.py:56). -/
def invalidTokenResp : HttpResponse :=
  { status := 401, body := jsonDetail "Invalid authorization token",
    headers := jsonHeaders }

/-- Response (500) produced from `HTTPException(500, "Error communicating
with backend service")` on any backend transport failure (main.py:94). -/
def backendErrorResp : HttpResponse :=
  { status := 500, body := jsonDetail "Error communicating with backend service",
    headers := jsonHeaders }

/-- Paths exempt from authentication (main.py:24). -/
def EXCLUDED_PATHS : List String := ["/health", "/docs", "/openapi.json"]

/-- The auth middleware (main.py:27-62). `none` means the request passes
through to route dispatch unmodified; `some resp` is a short-circuit
rejection. The final token comparison `token != DOCLING_API_TOKEN` is only
reachable when the configured token is a non-empty string, so comparing
against `cfg.token.getD ""` is faithful. -/
def authenticate_request (cfg : Config) (req : Request) : Option HttpResponse :=
  if req.path ∈ EXCLUDED_PATHS then
    none
  else if pyFalsy cfg.token then
    some configErrorResp
  else if pyFalsy (headersGet req.headers "Authorization") then
    some headerRequiredResp
  else if (pySplitWs1 ((headersGet req.headers "Authorization").getD "")).length ≠ 2 ∨
      strLower ((pySplitWs1 ((headersGet req.headers "Authorization").getD "")).headD "")
        ≠ "bearer" then
    some formatErrorResp
  else if (pySplitWs1 ((headersGet req.headers "Authorization").getD "")).getD 1 "" ≠
      cfg.token.getD "" then
    some invalidTokenResp
  else
    none

/-- Inbound `Content-Type`, defaulting to the empty string
(`request.headers.get("Content-Type", "")`). -/
def contentTypeOf (req : Request) : String :=
  (headersGet req.headers "Content-Type").getD ""

/-- Outbound request built by `proxy_convert_file` (main.py:68-84). -/
def convertFileTarget (apiUrl : String) (req : Request) : OutboundRequest :=
  { method := "POST", url := apiUrl ++ "/v1alpha/convert/file", waitQuery := none,
    body := req.body, headers := [("Content-Type", contentTypeOf req)],
    timeout := 300 }

/-- Outbound request built by `proxy_convert_source` (main.py:99-115). -/
def convertSourceTarget (apiUrl : String) (req : Request) : OutboundRequest :=
  { method := "POST", url := apiUrl ++ "/v1alpha/convert/source", waitQuery := none,
    body := req.body, headers := [("Content-Type", contentTypeOf req)],
    timeout := 300 }

/-- Outbound request built by `proxy_convert_source_async` (main.py:130-148). -/
def convertSourceAsyncTarget (apiUrl : String) (req : Request) : OutboundRequest :=
  { method := "POST", url := apiUrl ++ "/v1alpha/convert/source/async", waitQuery := none,
    body := req.body, headers := [("Content-Type", contentTypeOf req)],
    timeout := 30 }

/-- Outbound request built by `proxy_task_status` (main.py:162-177): a GET
with no body and no forwarded headers; `?wait=...` appended only when
`wait > 0`; timeout `max(wait + 5.0, 30.0)`. -/
def statusPollTarget (apiUrl taskId : String) (req : Request) : OutboundRequest :=
  { method := "GET", url := apiUrl ++ "/v1alpha/status/poll/" ++ taskId,
    waitQuery := if req.wait > 0 then some req.wait else none,
    body := "", headers := [], timeout := max (req.wait + 5) 30 }

/-- Outbound request built by `proxy_task_result` (main.py:191-202): a GET
with no body and no forwarded headers, fixed 60s timeout. -/
def taskResultTarget (apiUrl taskId : String) (_req : Request) : OutboundRequest :=
  { method := "GET", url := apiUrl ++ "/v1alpha/result/" ++ taskId,
    waitQuery := none, body := "", headers := [], timeout := 60 }

/-- Shared relay tail of every handler: on backend success return the
backend's status, body and headers verbatim (`Response(content=...,
status_code=..., headers=dict(response.headers))`); on any exception,
the fixed 500. -/
def relay (backend : Backend) (target : OutboundRequest) : HttpResponse :=
  match backend target with
  | some r => { status := r.status, body := r.body, headers := r.headers }
  | none => backendErrorResp

/-- Handler for `POST /convert/file` (main.py:68-97). -/
def proxy_convert_file (apiUrl : String) (backend : Backend) (req : Request) : HttpResponse :=
  relay backend (convertFileTarget apiUrl req)

/-- Handler for `POST /convert/source` (main.py:99-128). -/
def proxy_convert_source (apiUrl : String) (backend : Backend) (req : Request) : HttpResponse :=
  relay backend (convertSourceTarget apiUrl req)

/-- Handler for `POST /convert/source/async` (main.py:130-160). -/
def proxy_convert_source_async (apiUrl : String) (backend : Backend) (req : Request) : HttpResponse :=
  relay backend (convertSourceAsyncTarget apiUrl req)

/-- Handler for `GET /status/poll/{task_id}` (main.py:162-189). -/
def proxy_task_status (apiUrl : String) (backend : Backend) (taskId : String)
    (req : Request) : HttpResponse :=
  relay backend (statusPollTarget apiUrl taskId req)

/-- Handler for `GET /result/{task_id}` (main.py:191-214). -/
def proxy_task_result (apiUrl : String) (backend : Backend) (taskId : String)
    (req : Request) : HttpResponse :=
  relay backend (taskResultTarget apiUrl taskId req)

/-- The endpoints declared on the FastAPI app. -/
inductive Endpoint where
  | health
  | convertFile
  | convertSource
  | convertSourceAsync
  | statusPoll (taskId : String)
  | taskResult (taskId : String)
deriving DecidableEq

/-- FastAPI route matching for the declared paths; a `{task_id}` path
parameter matches one non-empty slash-free segment. -/
def routeOf (path : String) : Option Endpoint :=
  if path = "/health" then some .health
  else if path = "/convert/file" then some .convertFile
  else if path = "/convert/source" then some .convertSource
  else if path = "/convert/source/async" then some .convertSourceAsync
  else if path.data.take 13 = "/status/poll/".data ∧ path.data.drop 13 ≠ [] ∧
      (path.data.drop 13).all fun c => c ≠ Char.ofNat 47 then
    some (.statusPoll (String.mk (path.data.drop 13)))
  else if path.data.take 8 = "/result/".data ∧ path.data.drop 8 ≠ [] ∧
      (path.data.drop 8).all fun c => c ≠ Char.ofNat 47 then
    some (.taskResult (String.mk (path.data.drop 8)))
  else none

/-- Body of `GET /health` (main.py:66), rendered by FastAPI. -/
def healthResp : HttpResponse :=
  { status := 200, body := "\x7b\"status\":\"ok\"\x7d", headers := jsonHeaders }

/-- FastAPI's default response for an unmatched path. -/
def notFoundResp : HttpResponse :=
  { status := 404, body := jsonDetail "Not Found", headers := jsonHeaders }

/-- Route dispatch after the middleware has passed the request through. -/
def dispatch (cfg : Config) (backend : Backend) (req : Request) : HttpResponse :=
  match routeOf req.path with
  | some .health => healthResp
  | some .convertFile => proxy_convert_file cfg.apiUrl backend req
  | some .convertSource => proxy_convert_source cfg.apiUrl backend req
  | some .convertSourceAsync => proxy_convert_source_async cfg.apiUrl backend req
  | some (.statusPoll tid) => proxy_task_status cfg.apiUrl backend tid req
  | some (.taskResult tid) => proxy_task_result cfg.apiUrl backend tid req
  | none => notFoundResp

/-- The whole proxy: the middleware's short-circuit response when it
rejects, otherwise route dispatch (`call_next`). -/
def app (cfg : Config) (backend : Backend) (req : Request) : HttpResponse :=
  (authenticate_request cfg req).getD (dispatch cfg backend req)

/-- Substring test on the underlying character lists. -/
def strContains (s sub : String) : Bool :=
  (List.range (s.data.length + 1)).any fun i =>
    decide ((s.data.drop i).take sub.data.length = sub.data)

/-- Every character of a detected substring occurs in the containing string. -/
theorem strContains_char_mem {s sub : String} (h : strContains s sub = true) :
    ∀ c ∈ sub.data, c ∈ s.data := by
  intro c hc
  unfold strContains at h
  rw [List.any_eq_true] at h
  obtain ⟨i, _, hdec⟩ := h
  rw [decide_eq_true_eq] at hdec
  rw [← hdec] at hc
  exact List.drop_subset i s.data (List.take_subset _ _ hc)

/-- The fixed transport-failure body never contains a backend target URL,
because every target URL contains a slash and the fixed body does not. -/
theorem url_not_in_error_body (url : String)
    (hs : Char.ofNat 47 ∈ url.data) :
    strContains backendErrorResp.body url = false := by
  by_contra h
  rw [Bool.not_eq_false] at h
  have : Char.ofNat 47 ∈ backendErrorResp.body.data :=
    strContains_char_mem h _ hs
  revert this
  decide

/-- Splitting the empty header value yields no tokens. -/
theorem pySplitWs1_empty : pySplitWs1 "" = [] := rfl

/-- When the secret is a configured non-empty string and the header
splits into a case-insensitive `Bearer` scheme followed by exactly the
secret, the middleware passes the request through. -/
theorem authenticate_request_pass (cfg : Config) (req : Request) (s v sch : String)
    (hpath : req.path ∉ EXCLUDED_PATHS)
    (htok : cfg.token = some s) (hne : s ≠ "")
    (hh : headersGet req.headers "Authorization" = some v)
    (hsplit : pySplitWs1 v = [sch, s])
    (hsch : strLower sch = "bearer") :
    authenticate_request cfg req = none := by
  have hv : v ≠ "" := by
    intro h
    rw [h, pySplitWs1_empty] at hsplit
    simp at hsplit
  unfold authenticate_request
  rw [if_neg hpath]
  simp [pyFalsy, hne, hv, hh, hsplit, hsch, htok]

/-- When the secret is configured non-empty, the header parses as a
bearer scheme, but the token differs from the secret, the middleware
rejects with the invalid-token response. -/
theorem authenticate_request_invalid_token (cfg : Config) (req : Request)
    (s v sch t : String)
    (hpath : req.path ∉ EXCLUDED_PATHS)
    (htok : cfg.token = some s) (hne : s ≠ "")
    (hh : headersGet req.headers "Authorization" = some v)
    (hsplit : pySplitWs1 v = [sch, t])
    (hsch : strLower sch = "bearer")
    (ht : t ≠ s) :
    authenticate_request cfg req = some invalidTokenResp := by
  have hv : v ≠ "" := by
    intro h
    rw [h, pySplitWs1_empty] at hsplit
    simp at hsplit
  unfold authenticate_request
  rw [if_neg hpath]
  simp [pyFalsy, hne, hv, hh, hsplit, hsch, htok, ht]

/-- C1: every protected request whose bearer token equals the configured
secret and whose backend call succeeds — whichever of the five forwarding
routes it matches — is answered with exactly the backend's status code,
body bytes, and header list: nothing filtered, added, or removed. -/
theorem authorized_success_relays_backend (cfg : Config) (backend : Backend)
    (req : Request) (s v sch : String)
    (hpath : req.path ∉ EXCLUDED_PATHS)
    (htok : cfg.token = some s) (hne : s ≠ "")
    (hh : headersGet req.headers "Authorization" = some v)
    (hsplit : pySplitWs1 v = [sch, s])
    (hsch : strLower sch = "bearer") :
    (routeOf req.path = some .convertFile →
      ∀ r, backend (convertFileTarget cfg.apiUrl req) = some r →
        app cfg backend req = { status := r.status, body := r.body, headers := r.headers })
    ∧ (routeOf req.path = some .convertSource →
      ∀ r, backend (convertSourceTarget cfg.apiUrl req) = some r →
        app cfg backend req = { status := r.status, body := r.body, headers := r.headers })
    ∧ (routeOf req.path = some .convertSourceAsync →
      ∀ r, backend (convertSourceAsyncTarget cfg.apiUrl req) = some r →
        app cfg backend req = { status := r.status, body := r.body, headers := r.headers })
    ∧ (∀ tid, routeOf req.path = some (.statusPoll tid) →
      ∀ r, backend (statusPollTarget cfg.apiUrl tid req) = some r →
        app cfg backend req = { status := r.status, body := r.body, headers := r.headers })
    ∧ (∀ tid, routeOf req.path = some (.taskResult tid) →
      ∀ r, backend (taskResultTarget cfg.apiUrl tid req) = some r →
        app cfg backend req = { status := r.status, body := r.body, headers := r.headers }) := by
  have hauth := authenticate_request_pass cfg req s v sch hpath htok hne hh hsplit hsch
  refine ⟨?_, ?_, ?_, ?_, ?_⟩
  · intro hroute r hb
    unfold app
    rw [hauth, Option.getD_none]
    unfold dispatch
    rw [hroute]
    show proxy_convert_file cfg.apiUrl backend req = _
    unfold proxy_convert_file relay
    rw [hb]
  · intro hroute r hb
    unfold app
    rw [hauth, Option.getD_none]
    unfold dispatch
    rw [hroute]
    show proxy_convert_source cfg.apiUrl backend req = _
    unfold proxy_convert_source relay
    rw [hb]
  · intro hroute r hb
    unfold app
    rw [hauth, Option.getD_none]
    unfold dispatch
    rw [hroute]
    show proxy_convert_source_async cfg.apiUrl backend req = _
    unfold proxy_convert_source_async relay
    rw [hb]
  · intro tid hroute r hb
    unfold app
    rw [hauth, Option.getD_none]
    unfold dispatch
    rw [hroute]
    show proxy_task_status cfg.apiUrl backend tid req = _
    unfold proxy_task_status relay
    rw [hb]
  · intro tid hroute r hb
    unfold app
    rw [hauth, Option.getD_none]
    unfold dispatch
    rw [hroute]
    show proxy_task_result cfg.apiUrl backend tid req = _
    unfold proxy_task_result relay
    rw [hb]

/-- C1 witness: concrete authorized `POST /convert/file` relayed from a
backend answering 200. -/
theorem authorized_success_relays_backend_witness :
    app ⟨some "SECRET", "http://b"⟩
        (fun _ => some ⟨200, "\x7b\"result\":\"ok\"\x7d",
          [("content-type", "application/json"), ("x-backend", "1")]⟩)
        ⟨"/convert/file",
          [("Authorization", "Bearer SECRET"), ("Content-Type", "application/pdf")],
          "PDFDATA", 0⟩
      = ⟨200, "\x7b\"result\":\"ok\"\x7d",
          [("content-type", "application/json"), ("x-backend", "1")]⟩ :=
  (authorized_success_relays_backend _ _ _ "SECRET" "Bearer SECRET" "Bearer"
    (by decide) rfl (by decide) (by decide) (by decide) (by decide)).1 (by decide) _ (by rfl)

/-- C3: with the secret configured, a header parsing into a scheme that
equals `Bearer` case-insensitively and a second token that differs from
the secret in any way is rejected 401 with the invalid-token message. -/
theorem wrong_token_rejected_401 (cfg : Config) (backend : Backend) (req : Request)
    (s v sch t : String)
    (hpath : req.path ∉ EXCLUDED_PATHS)
    (htok : cfg.token = some s) (hne : s ≠ "")
    (hh : headersGet req.headers "Authorization" = some v)
    (hsplit : pySplitWs1 v = [sch, t])
    (hsch : strLower sch = "bearer")
    (ht : t ≠ s) :
    app cfg backend req = invalidTokenResp := by
  unfold app
  rw [authenticate_request_invalid_token cfg req s v sch t hpath htok hne hh hsplit hsch ht]
  rfl

/-- C3 witness: `Authorization: bearer WRONGTOKEN` — lowercase scheme
passes the case-insensitive check, the token value check fails, 401. -/
theorem wrong_token_rejected_401_witness :
    app ⟨some "SECRET", "http://b"⟩ (fun _ => none)
        ⟨"/convert/file", [("Authorization", "bearer WRONGTOKEN")], "", 0⟩
      = invalidTokenResp :=
  wrong_token_rejected_401 _ _ _ "SECRET" "bearer WRONGTOKEN" "bearer" "WRONGTOKEN"
    (by decide) rfl (by decide) (by decide) (by decide) (by decide) (by decide)

/-- C2: with the shared secret unset or empty, every request to a
non-allow-listed path is rejected with the 503 configuration-error
response, whatever headers it carries. -/
theorem unset_secret_rejects_503 (cfg : Config) (backend : Backend) (req : Request)
    (htok : cfg.token = none ∨ cfg.token = some "")
    (hpath : req.path ∉ EXCLUDED_PATHS) :
    app cfg backend req = configErrorResp := by
  have hf : pyFalsy cfg.token = true := by
    rcases htok with h | h <;> simp [h, pyFalsy]
  have hauth : authenticate_request cfg req = some configErrorResp := by
    unfold authenticate_request
    rw [if_neg hpath, if_pos hf]
  unfold app
  rw [hauth]
  rfl

/-- C2 witness: a request to `/convert/file` with a well-formed bearer
header still gets 503 when the token is unset. -/
theorem unset_secret_rejects_503_witness :
    app { token := none, apiUrl := "http://backend:3000" } (fun _ => none)
        { path := "/convert/file", headers := [("Authorization", "Bearer x")],
          body := "", wait := 0 }
      = configErrorResp :=
  unset_secret_rejects_503 _ _ _ (Or.inl rfl) (by decide)

/-- C4 counterexample: an `Authorization` header that is present with the
empty value splits into zero tokens — not two — yet the proxy answers
with the header-required message, not the format-error message the claim
demands for every present-but-unparseable header. -/
theorem empty_header_gets_required_msg_counterexample :
    app ⟨some "SECRET", "http://b"⟩ (fun _ => none)
        ⟨"/convert/file", [("Authorization", "")], "", 0⟩
      = headerRequiredResp
    ∧ (pySplitWs1 "").length ≠ 2
    ∧ headerRequiredResp ≠ formatErrorResp := by
  decide

/-- C4 (amended): with the secret configured, a missing — or present but
empty, hence falsy — `Authorization` header gets the 401 header-required
message; a present non-empty header that does not split into exactly two
tokens with the first case-insensitively `Bearer` gets the 401
format-error message; and the three 401 messages are pairwise distinct. -/
theorem auth_error_messages (cfg : Config) (backend : Backend) (req : Request)
    (s : String)
    (htok : cfg.token = some s) (hne : s ≠ "")
    (hpath : req.path ∉ EXCLUDED_PATHS) :
    ((headersGet req.headers "Authorization" = none ∨
        headersGet req.headers "Authorization" = some "") →
      app cfg backend req = headerRequiredResp)
    ∧ (∀ v, headersGet req.headers "Authorization" = some v → v ≠ "" →
        ((pySplitWs1 v).length ≠ 2 ∨ strLower ((pySplitWs1 v).headD "") ≠ "bearer") →
        app cfg backend req = formatErrorResp)
    ∧ headerRequiredResp ≠ formatErrorResp
    ∧ headerRequiredResp ≠ invalidTokenResp
    ∧ formatErrorResp ≠ invalidTokenResp := by
  have hnc1 : ¬ (pyFalsy cfg.token = true) := by
    rw [htok]
    simp [pyFalsy, hne]
  refine ⟨?_, ?_, by decide, by decide, by decide⟩
  · intro h
    have hc2 : pyFalsy (headersGet req.headers "Authorization") = true := by
      rcases h with h | h <;> simp [h, pyFalsy]
    have hauth : authenticate_request cfg req = some headerRequiredResp := by
      unfold authenticate_request
      rw [if_neg hpath, if_neg hnc1, if_pos hc2]
    unfold app
    rw [hauth]
    rfl
  · intro v hv hvne hbad
    have hnc2 : ¬ (pyFalsy (headersGet req.headers "Authorization") = true) := by
      rw [hv]
      simp [pyFalsy, hvne]
    have hcond : (pySplitWs1 ((headersGet req.headers "Authorization").getD "")).length ≠ 2 ∨
        strLower ((pySplitWs1 ((headersGet req.headers "Authorization").getD "")).headD "")
          ≠ "bearer" := by
      rw [hv, Option.getD_some]
      exact hbad
    have hauth : authenticate_request cfg req = some formatErrorResp := by
      unfold authenticate_request
      rw [if_neg hpath, if_neg hnc1, if_neg hnc2, if_pos hcond]
    unfold app
    rw [hauth]
    rfl

/-- C4 witness: a protected request with no `Authorization` header at all
gets the header-required response. -/
theorem auth_error_messages_witness :
    app ⟨some "SECRET", "http://b"⟩ (fun _ => none) ⟨"/convert/file", [], "", 0⟩
      = headerRequiredResp :=
  (auth_error_messages _ _ _ "SECRET" rfl (by decide) (by decide)).1 (Or.inl rfl)

/-- C6: for each forwarding route separately, if that route's backend
call fails at the transport level the caller gets 500 with the fixed
generic JSON body, which contains the generic message and does not
contain the backend target URL. -/
theorem transport_failure_masked_500 (apiUrl tid : String) (backend : Backend)
    (req : Request) :
    (backend (convertFileTarget apiUrl req) = none →
      proxy_convert_file apiUrl backend req = backendErrorResp)
    ∧ (backend (convertSourceTarget apiUrl req) = none →
      proxy_convert_source apiUrl backend req = backendErrorResp)
    ∧ (backend (convertSourceAsyncTarget apiUrl req) = none →
      proxy_convert_source_async apiUrl backend req = backendErrorResp)
    ∧ (backend (statusPollTarget apiUrl tid req) = none →
      proxy_task_status apiUrl backend tid req = backendErrorResp)
    ∧ (backend (taskResultTarget apiUrl tid req) = none →
      proxy_task_result apiUrl backend tid req = backendErrorResp)
    ∧ backendErrorResp.status = 500
    ∧ strContains backendErrorResp.body "Error communicating with backend service" = true
    ∧ strContains backendErrorResp.body (convertFileTarget apiUrl req).url = false
    ∧ strContains backendErrorResp.body (convertSourceTarget apiUrl req).url = false
    ∧ strContains backendErrorResp.body (convertSourceAsyncTarget apiUrl req).url = false
    ∧ strContains backendErrorResp.body (statusPollTarget apiUrl tid req).url = false
    ∧ strContains backendErrorResp.body (taskResultTarget apiUrl tid req).url = false := by
  refine ⟨?_, ?_, ?_, ?_, ?_, rfl, by decide, ?_, ?_, ?_, ?_, ?_⟩
  · intro h1
    unfold proxy_convert_file relay
    rw [h1]
  · intro h2
    unfold proxy_convert_source relay
    rw [h2]
  · intro h3
    unfold proxy_convert_source_async relay
    rw [h3]
  · intro h4
    unfold proxy_task_status relay
    rw [h4]
  · intro h5
    unfold proxy_task_result relay
    rw [h5]
  · apply url_not_in_error_body
    show Char.ofNat 47 ∈ (apiUrl ++ "/v1alpha/convert/file").data
    rw [String.data_append]
    exact List.mem_append_right _ (by decide)
  · apply url_not_in_error_body
    show Char.ofNat 47 ∈ (apiUrl ++ "/v1alpha/convert/source").data
    rw [String.data_append]
    exact List.mem_append_right _ (by decide)
  · apply url_not_in_error_body
    show Char.ofNat 47 ∈ (apiUrl ++ "/v1alpha/convert/source/async").data
    rw [String.data_append]
    exact List.mem_append_right _ (by decide)
  · apply url_not_in_error_body
    show Char.ofNat 47 ∈ (apiUrl ++ "/v1alpha/status/poll/" ++ tid).data
    rw [String.data_append, String.data_append]
    exact List.mem_append_left _ (List.mem_append_right _ (by decide))
  · apply url_not_in_error_body
    show Char.ofNat 47 ∈ (apiUrl ++ "/v1alpha/result/" ++ tid).data
    rw [String.data_append, String.data_append]
    exact List.mem_append_left _ (List.mem_append_right _ (by decide))

/-- C6 witness: the backend-unreachable scenario on `POST /convert/source`. -/
theorem transport_failure_masked_500_witness :
    proxy_convert_source "http://backend:3000" (fun _ => none)
        ⟨"/convert/source", [("Content-Type", "application/json")], "\x7b\x7d", 0⟩
      = backendErrorResp :=
  (transport_failure_masked_500 "http://backend:3000" "abc" (fun _ => none)
    ⟨"/convert/source", [("Content-Type", "application/json")], "\x7b\x7d", 0⟩).2.1 rfl

/-- C5 counterexample: on the status-poll route the outbound backend call
carries no headers and no body, even though the inbound request has a
`Content-Type` and a non-empty body — so the claim that every one of the
five routes forwards the captured body and Content-Type is false. -/
theorem get_routes_forward_nothing_counterexample :
    contentTypeOf
        ⟨"/status/poll/abc123", [("Content-Type", "application/pdf")], "PDFDATA", 0⟩
      = "application/pdf"
    ∧ ("Content-Type", "application/pdf") ∉
      (statusPollTarget "http://b" "abc123"
        ⟨"/status/poll/abc123", [("Content-Type", "application/pdf")], "PDFDATA", 0⟩).headers
    ∧ (statusPollTarget "http://b" "abc123"
        ⟨"/status/poll/abc123", [("Content-Type", "application/pdf")], "PDFDATA", 0⟩).body = ""
    ∧ (statusPollTarget "http://b" "abc123"
        ⟨"/status/poll/abc123", [("Content-Type", "application/pdf")], "PDFDATA", 0⟩).body
      ≠ "PDFDATA" := by
  decide

/-- C5 (amended): the three POST routes forward the captured body and
exactly the captured `Content-Type` header; the two GET routes issue the
outbound call with empty body and no inbound headers. -/
theorem forwarding_body_and_content_type (apiUrl tid : String) (req : Request) :
    ((convertFileTarget apiUrl req).body = req.body
      ∧ (convertFileTarget apiUrl req).headers = [("Content-Type", contentTypeOf req)])
    ∧ ((convertSourceTarget apiUrl req).body = req.body
      ∧ (convertSourceTarget apiUrl req).headers = [("Content-Type", contentTypeOf req)])
    ∧ ((convertSourceAsyncTarget apiUrl req).body = req.body
      ∧ (convertSourceAsyncTarget apiUrl req).headers = [("Content-Type", contentTypeOf req)])
    ∧ ((statusPollTarget apiUrl tid req).body = ""
      ∧ (statusPollTarget apiUrl tid req).headers = [])
    ∧ ((taskResultTarget apiUrl tid req).body = ""
      ∧ (taskResultTarget apiUrl tid req).headers = []) :=
  ⟨⟨rfl, rfl⟩, ⟨rfl, rfl⟩, ⟨rfl, rfl⟩, ⟨rfl, rfl⟩, ⟨rfl, rfl⟩⟩

/-- C7: allow-listed paths bypass every authentication check — the gate
passes the request through for any configuration and any headers — and
`GET /health` with no headers returns 200 with the ok body even when the
secret is unset. -/
theorem allowlist_bypasses_auth (cfg : Config) (backend : Backend) (req : Request)
    (u : String) (hpath : req.path ∈ EXCLUDED_PATHS) :
    authenticate_request cfg req = none
    ∧ app { token := none, apiUrl := u } backend
        { path := "/health", headers := [], body := "", wait := 0 } = healthResp := by
  constructor
  · unfold authenticate_request
    rw [if_pos hpath]
  · rfl

/-- C7 witness: instantiated at `/docs` with an arbitrary bad header and
no configured secret. -/
theorem allowlist_bypasses_auth_witness :
    authenticate_request { token := none, apiUrl := "http://b" }
        { path := "/docs", headers := [("Authorization", "garbage")], body := "", wait := 0 }
      = none
    ∧ app { token := none, apiUrl := "http://b" } (fun _ => none)
        { path := "/health", headers := [], body := "", wait := 0 } = healthResp :=
  allowlist_bypasses_auth _ (fun _ => none) _ _ (by decide)

/-- C8: on the status-poll route the `?wait=...` query is attached to the
backend URL exactly when `wait > 0`, and the outbound timeout is
`max (wait + 5, 30)`; at `wait = 2.5` the timeout is 30 and the query is
`?wait=2.5`. -/
theorem status_poll_wait_and_timeout (apiUrl tid : String) (req : Request) :
    ((statusPollTarget apiUrl tid req).waitQuery = some req.wait ↔ 0 < req.wait)
    ∧ (¬ 0 < req.wait → (statusPollTarget apiUrl tid req).waitQuery = none)
    ∧ (statusPollTarget apiUrl tid req).timeout = max (req.wait + 5) 30
    ∧ (statusPollTarget "http://b" "abc123"
        { path := "/status/poll/abc123", headers := [], body := "", wait := 5/2 }).timeout = 30
    ∧ (statusPollTarget "http://b" "abc123"
        { path := "/status/poll/abc123", headers := [], body := "", wait := 5/2 }).waitQuery
      = some (5/2) := by
  refine ⟨?_, ?_, rfl, ?_, ?_⟩
  · by_cases h : (0 : ℚ) < req.wait <;> simp [statusPollTarget, h]
  · intro h
    simp [statusPollTarget, h]
  · show max ((5 / 2 : ℚ) + 5) 30 = 30
    norm_num
  · norm_num [statusPollTarget]

/-- C8 witness: the `wait = 2.5` scenario — timeout 30 seconds and the
query `?wait=2.5` attached. -/
theorem status_poll_wait_and_timeout_witness :
    (statusPollTarget "http://b" "abc123"
        { path := "/status/poll/abc123", headers := [], body := "", wait := 5/2 }).timeout = 30
    ∧ (statusPollTarget "http://b" "abc123"
        { path := "/status/poll/abc123", headers := [], body := "", wait := 5/2 }).waitQuery
      = some (5/2) :=
  ⟨(status_poll_wait_and_timeout "http://b" "abc123"
      { path := "/status/poll/abc123", headers := [], body := "", wait := 5/2 }).2.2.2.1,
   (status_poll_wait_and_timeout "http://b" "abc123"
      { path := "/status/poll/abc123", headers := [], body := "", wait := 5/2 }).2.2.2.2⟩

/-- C9: the proxy is a deterministic function of configuration, backend
and request — two runs of the same authorized request against the same
deterministic backend agree in status, body and headers. -/
theorem proxy_deterministic (cfg : Config) (backend : Backend) (req : Request)
    (r1 r2 : HttpResponse)
    (h1 : r1 = app cfg backend req) (h2 : r2 = app cfg backend req) :
    r1.status = r2.status ∧ r1.body = r2.body ∧ r1.headers = r2.headers := by
  subst h1
  subst h2
  exact ⟨rfl, rfl, rfl⟩

/-- C9 witness: two runs of a concrete authorized request. -/
theorem proxy_deterministic_witness :
    (app { token := some "SECRET", apiUrl := "http://b" } (fun _ => none)
        { path := "/convert/file", headers := [("Authorization", "Bearer SECRET")],
          body := "PDFDATA", wait := 0 }).status
      = (app { token := some "SECRET", apiUrl := "http://b" } (fun _ => none)
        { path := "/convert/file", headers := [("Authorization", "Bearer SECRET")],
          body := "PDFDATA", wait := 0 }).status :=
  (proxy_deterministic _ _ _ _ _ rfl rfl).1

/-- C10: the outbound request of every route carries no inbound header
except `Content-Type`: the three POST routes forward exactly that one
header and the two GET routes forward none, so `Authorization` (and the
secret it carries) is never sent to the backend. -/
theorem no_inbound_header_leaks (apiUrl tid : String) (req : Request) :
    (convertFileTarget apiUrl req).headers = [("Content-Type", contentTypeOf req)]
    ∧ (convertSourceTarget apiUrl req).headers = [("Content-Type", contentTypeOf req)]
    ∧ (convertSourceAsyncTarget apiUrl req).headers = [("Content-Type", contentTypeOf req)]
    ∧ (statusPollTarget apiUrl tid req).headers = []
    ∧ (taskResultTarget apiUrl tid req).headers = []
    ∧ "Authorization" ∉ ((convertFileTarget apiUrl req).headers.map Prod.fst)
    ∧ "Authorization" ∉ ((convertSourceTarget apiUrl req).headers.map Prod.fst)
    ∧ "Authorization" ∉ ((convertSourceAsyncTarget apiUrl req).headers.map Prod.fst)
    ∧ "Authorization" ∉ ((statusPollTarget apiUrl tid req).headers.map Prod.fst)
    ∧ "Authorization" ∉ ((taskResultTarget apiUrl tid req).headers.map Prod.fst) := by
  refine ⟨rfl, rfl, rfl, rfl, rfl, ?_, ?_, ?_, ?_, ?_⟩ <;>
    simp [convertFileTarget, convertSourceTarget, convertSourceAsyncTarget,
      statusPollTarget, taskResultTarget]

end ApiProxy
